import Mathlib

/-!
Shallow embedding of the `bevy_tween` core (src/lib.rs, src/interpolation.rs):
the interpolation sampler system, the plugin wiring, and the easing library.

Floating-point `f32` values are modelled as `Option ℚ`: `none` is the NaN
sentinel, `some q` an ordinary (finite) value.  The ECS world is modelled as a
list of per-entity records carrying the components the sampler touches,
together with the Changed-detection flags and the queued
`RemovedComponents<TweenProgress>` events for the tick.
-/

namespace BevyTween

/-- `TweenProgress` component (from `crate::tween`): its `now_percentage : f32`
field, with `none` standing for the NaN sentinel. -/
structure TweenProgress where
  now_percentage : Option ℚ
deriving DecidableEq, Repr

/-- `TweenInterpolationValue` component (from `crate::tween`): the sampled
scalar wrapped by the newtype. -/
structure TweenInterpolationValue where
  value : ℚ
deriving DecidableEq, Repr

/-- Rust `f32::clamp(0., 1.)` on a non-NaN value. -/
def clamp01 (q : ℚ) : ℚ := max 0 (min 1 q)

/-- One entity as seen by `sample_interpolations_system::<I>`: its id, the
optional easing-curve component `I` (type parameter `α`), the optional
`TweenProgress`, the bevy Changed flags of those two components for this tick,
and the optional `TweenInterpolationValue` currently stored on it. -/
structure EntityRecord (α : Type) where
  id : Nat
  curve : Option α
  curveChanged : Bool
  progress : Option TweenProgress
  progressChanged : Bool
  interp : Option TweenInterpolationValue
deriving DecidableEq, Repr

/-- The world state a run of the system observes: the live entities and the
`RemovedComponents<TweenProgress>` events queued for this tick (ids, possibly
of entities that have since been despawned). -/
structure World (α : Type) where
  entities : List (EntityRecord α)
  removedProgress : List Nat
deriving DecidableEq, Repr

/-- The query body of `sample_interpolations_system`: an entity matched by
`Query<(Entity, &I, &TweenProgress), Or<(Changed<I>, Changed<TweenProgress>)>>`
is processed; if `now_percentage.is_nan()` it returns early, otherwise the
curve is sampled at the clamped progress and the result inserted as
`TweenInterpolationValue`, overwriting any prior one. -/
def runEntity (sample : α → ℚ → ℚ) (r : EntityRecord α) : EntityRecord α :=
  match r.curve, r.progress with
  | some i, some p =>
    if r.curveChanged || r.progressChanged then
      match p.now_percentage with
      | none => r
      | some q => { r with interp := some ⟨sample i (clamp01 q)⟩ }
    else r
  | _, _ => r

/-- Whether the query body actually calls `interpolator.sample` for this
record: both components present, one of them Changed, and the progress not the
NaN sentinel. -/
def samples (r : EntityRecord α) : Bool :=
  match r.curve, r.progress with
  | some _, some p =>
    (r.curveChanged || r.progressChanged) && p.now_percentage.isSome
  | _, _ => false

/-- One `RemovedComponents<TweenProgress>` event: `commands.get_entity` yields
`Some` only when the entity still exists, in which case
`TweenInterpolationValue` is removed from it. -/
def removeInterpFor (es : List (EntityRecord α)) (i : Nat) :
    List (EntityRecord α) :=
  if es.any fun r => r.id == i then
    es.map fun r => if r.id == i then { r with interp := none } else r
  else es

/-- `sample_interpolations_system::<I>`: process every query match (deferred
inserts), then process the removal events (deferred removes); bevy applies the
queued commands in that order at the next sync point.  `removed.read()`
consumes the queued events, so the resulting world has none left. -/
def sample_interpolations_system (sample : α → ℚ → ℚ) (w : World α) :
    World α :=
  { entities :=
      w.removedProgress.foldl removeInterpFor
        (w.entities.map (runEntity sample)),
    removedProgress := [] }

theorem runEntity_of_not_samples (sample : α → ℚ → ℚ) (r : EntityRecord α)
    (h : samples r = false) : runEntity sample r = r := by
  unfold runEntity
  unfold samples at h
  cases hc : r.curve with
  | none => rfl
  | some i =>
    cases hp : r.progress with
    | none => rfl
    | some p =>
      rw [hc, hp] at h
      cases hch : (r.curveChanged || r.progressChanged) with
      | false => simp [hch]
      | true =>
        rw [hch] at h
        simp at h
        simp [hch, h]

theorem runEntity_id (sample : α → ℚ → ℚ) (r : EntityRecord α) :
    (runEntity sample r).id = r.id := by
  obtain ⟨i, c, cc, pr, pc, itp⟩ := r
  unfold runEntity
  cases c <;> cases pr <;> first
  | rfl
  | (dsimp only; split
     · split <;> rfl
     · rfl)

theorem runEntity_progress (sample : α → ℚ → ℚ) (r : EntityRecord α) :
    (runEntity sample r).progress = r.progress := by
  obtain ⟨i, c, cc, pr, pc, itp⟩ := r
  unfold runEntity
  cases c <;> cases pr <;> first
  | rfl
  | (dsimp only; split
     · split <;> rfl
     · rfl)

theorem runEntity_interp_isSome (sample : α → ℚ → ℚ) (r : EntityRecord α) :
    (runEntity sample r).interp.isSome = (samples r || r.interp.isSome) := by
  obtain ⟨i, c, cc, pr, pc, itp⟩ := r
  unfold runEntity samples
  cases c with
  | none => simp
  | some cv =>
    cases pr with
    | none => simp
    | some p =>
      cases hq : p.now_percentage with
      | none => cases cc <;> cases pc <;> simp [hq]
      | some q => cases cc <;> cases pc <;> simp [hq]

theorem removeInterpFor_of_not_mem (es : List (EntityRecord α)) (i : Nat)
    (h : ∀ r ∈ es, r.id ≠ i) : removeInterpFor es i = es := by
  unfold removeInterpFor
  rw [if_neg]
  simp only [List.any_eq_true, beq_iff_eq, not_exists]
  intro r hmem
  exact h r hmem.1 hmem.2

theorem getElem?_removeInterpFor (es : List (EntityRecord α)) (i j : Nat) :
    (removeInterpFor es i)[j]? =
      es[j]?.map fun r =>
        if r.id = i then { r with interp := none } else r := by
  unfold removeInterpFor
  by_cases hany : (es.any fun r => r.id == i) = true
  · rw [if_pos hany, List.getElem?_map]
    cases hj : es[j]? with
    | none => rfl
    | some r => simp [beq_iff_eq]
  · rw [if_neg hany]
    cases hj : es[j]? with
    | none => rfl
    | some r =>
      have hr : r ∈ es := List.getElem?_mem hj
      have hne : ¬ r.id = i := by
        intro hid
        apply hany
        rw [List.any_eq_true]
        exact ⟨r, hr, by simp [hid]⟩
      simp [hne]

theorem getElem?_foldl_removeInterpFor (rem : List Nat)
    (es : List (EntityRecord α)) (j : Nat) :
    (rem.foldl removeInterpFor es)[j]? =
      es[j]?.map fun r =>
        if r.id ∈ rem then { r with interp := none } else r := by
  induction rem generalizing es with
  | nil => cases hj : es[j]? <;> simp [hj]
  | cons i tl ih =>
    rw [List.foldl_cons, ih, getElem?_removeInterpFor]
    cases hj : es[j]? with
    | none => rfl
    | some r =>
      by_cases hid : r.id = i
      · by_cases h2 : r.id ∈ tl <;>
          simp [hid, h2, List.mem_cons]
      · by_cases h2 : r.id ∈ tl <;>
          simp [hid, h2, List.mem_cons]

theorem system_entities_length (sample : α → ℚ → ℚ) (w : World α) :
    (sample_interpolations_system sample w).entities.length =
      w.entities.length := by
  unfold sample_interpolations_system
  have h1 : ∀ (rem : List Nat) (es : List (EntityRecord α)),
      (rem.foldl removeInterpFor es).length = es.length := by
    intro rem
    induction rem with
    | nil => intro es; rfl
    | cons i tl ih =>
      intro es
      rw [List.foldl_cons, ih]
      unfold removeInterpFor
      split <;> simp
  rw [h1, List.length_map]

/-- Pointwise description of a run of the system: each entity record is first
processed by the query body, then loses its `TweenInterpolationValue` when a
removal event for its id was queued. -/
theorem getElem?_system (sample : α → ℚ → ℚ) (w : World α) (j : Nat) :
    (sample_interpolations_system sample w).entities[j]? =
      w.entities[j]?.map fun r =>
        if r.id ∈ w.removedProgress then
          { runEntity sample r with interp := none }
        else runEntity sample r := by
  unfold sample_interpolations_system
  rw [getElem?_foldl_removeInterpFor, List.getElem?_map]
  cases hj : w.entities[j]? with
  | none => rfl
  | some r => simp [runEntity_id]

theorem samples_of_unchanged (r : EntityRecord α)
    (hcc : r.curveChanged = false) (hpc : r.progressChanged = false) :
    samples r = false := by
  obtain ⟨i, c, cc, pr, pc, itp⟩ := r
  unfold samples
  cases c <;> cases pr <;> simp_all

theorem samples_of_sentinel (r : EntityRecord α) (p : TweenProgress)
    (hp : r.progress = some p) (hq : p.now_percentage = none) :
    samples r = false := by
  unfold samples
  cases hc : r.curve <;> simp [hc, hp, hq]

/-- C1: for an entity with an easing-curve component and a `TweenProgress`
whose `now_percentage` is not NaN, whose curve or progress changed this tick
and for which no `TweenProgress` removal event is queued,
`sample_interpolations_system` clamps `now_percentage` into `[0, 1]`, samples
the curve at the clamped value, and stores the result as the entity's
`TweenInterpolationValue`, overwriting any prior value. -/
theorem sample_clamps_and_stores (sample : α → ℚ → ℚ) (w : World α)
    (j : Nat) (r : EntityRecord α) (c : α) (p : TweenProgress) (q : ℚ)
    (hr : w.entities[j]? = some r)
    (hc : r.curve = some c)
    (hp : r.progress = some p)
    (hq : p.now_percentage = some q)
    (hch : r.curveChanged = true ∨ r.progressChanged = true)
    (hnr : r.id ∉ w.removedProgress) :
    0 ≤ clamp01 q ∧ clamp01 q ≤ 1 ∧
      (sample_interpolations_system sample w).entities[j]? =
        some { r with interp := some ⟨sample c (clamp01 q)⟩ } := by
  refine ⟨le_max_left 0 _, max_le (by norm_num) (min_le_left 1 q), ?_⟩
  rw [getElem?_system, hr]
  simp only [Option.map_some']
  rw [if_neg hnr]
  have hb : (r.curveChanged || r.progressChanged) = true := by
    rcases hch with h | h <;> simp [h]
  unfold runEntity
  simp [hc, hp, hq, hb]

/-- C1 witness: concrete one-entity world with out-of-range progress `2`,
clamped to `1` before sampling the identity curve. -/
theorem sample_clamps_and_stores_witness :
    (0 : ℚ) ≤ clamp01 2 ∧ clamp01 2 ≤ 1 ∧
      (sample_interpolations_system (fun (_ : Unit) q => q)
          ⟨[⟨0, some (), true, some ⟨some 2⟩, false, none⟩],
            []⟩).entities[0]? =
        some ⟨0, some (), true, some ⟨some 2⟩, false, some ⟨clamp01 2⟩⟩ :=
  sample_clamps_and_stores (fun (_ : Unit) q => q)
    ⟨[⟨0, some (), true, some ⟨some 2⟩, false, none⟩], []⟩ 0
    ⟨0, some (), true, some ⟨some 2⟩, false, none⟩ () ⟨some 2⟩ 2
    rfl rfl rfl rfl (Or.inl rfl) (by decide)

/-- C2: an entity whose easing-curve and `TweenProgress` components are both
unchanged this tick (and for which no removal event is queued) is not
resampled and its record, in particular its `TweenInterpolationValue`, is
left exactly as it was. -/
theorem unchanged_not_resampled (sample : α → ℚ → ℚ) (w : World α)
    (j : Nat) (r : EntityRecord α)
    (hr : w.entities[j]? = some r)
    (hcc : r.curveChanged = false)
    (hpc : r.progressChanged = false)
    (hnr : r.id ∉ w.removedProgress) :
    samples r = false ∧
      (sample_interpolations_system sample w).entities[j]? = some r := by
  have hs := samples_of_unchanged r hcc hpc
  refine ⟨hs, ?_⟩
  rw [getElem?_system, hr]
  simp only [Option.map_some']
  rw [if_neg hnr, runEntity_of_not_samples sample r hs]

/-- C2 witness: an unchanged entity keeps its stored value `9` untouched and
is not sampled. -/
theorem unchanged_not_resampled_witness :
    samples (⟨5, some (), false, some ⟨some (1/2)⟩, false, some ⟨9⟩⟩ :
        EntityRecord Unit) = false ∧
      (sample_interpolations_system (fun (_ : Unit) q => q)
          ⟨[⟨5, some (), false, some ⟨some (1/2)⟩, false, some ⟨9⟩⟩],
            []⟩).entities[0]? =
        some ⟨5, some (), false, some ⟨some (1/2)⟩, false, some ⟨9⟩⟩ :=
  unchanged_not_resampled (fun (_ : Unit) q => q)
    ⟨[⟨5, some (), false, some ⟨some (1/2)⟩, false, some ⟨9⟩⟩], []⟩ 0
    ⟨5, some (), false, some ⟨some (1/2)⟩, false, some ⟨9⟩⟩
    rfl rfl rfl (by decide)

/-- C3: an entity that still exists and whose `TweenProgress` removal was
observed this tick ends the tick with no `TweenInterpolationValue`. -/
theorem removed_progress_clears_interp (sample : α → ℚ → ℚ) (w : World α)
    (j : Nat) (r : EntityRecord α)
    (hr : w.entities[j]? = some r)
    (hin : r.id ∈ w.removedProgress) :
    ((sample_interpolations_system sample w).entities[j]?.map
      EntityRecord.interp) = some none := by
  rw [getElem?_system, hr]
  simp [hin]

/-- C3 witness: the stored value `4` is removed once the progress-removal
event for entity `3` is processed. -/
theorem removed_progress_clears_interp_witness :
    ((sample_interpolations_system (fun (_ : Unit) q => q)
        ⟨[⟨3, some (), false, none, false, some ⟨4⟩⟩],
          [3]⟩).entities[0]?.map EntityRecord.interp) = some none :=
  removed_progress_clears_interp (fun (_ : Unit) q => q)
    ⟨[⟨3, some (), false, none, false, some ⟨4⟩⟩], [3]⟩ 0
    ⟨3, some (), false, none, false, some ⟨4⟩⟩ rfl (by decide)

/-- C4 counterexample: an entity whose `TweenProgress` is the NaN sentinel
(its component value changed to NaN but the component was not removed) keeps
its previously stored `TweenInterpolationValue`, so the claim that no value
"is kept" for sentinel entities fails on this input. -/
theorem sentinel_keeps_value_counterexample :
    ((sample_interpolations_system (fun (_ : Unit) q => q)
        ⟨[⟨0, some (), false, some ⟨none⟩, true, some ⟨3⟩⟩],
          []⟩).entities[0]?.map EntityRecord.interp) =
      some (some ⟨3⟩) := by decide

/-- C4 (amended): an entity whose `now_percentage` is the NaN sentinel is
skipped by the sampling pass — it is never sampled and no
`TweenInterpolationValue` is written for it — but a previously stored value
is kept unless a `TweenProgress` removal event for the entity was queued. -/
theorem sentinel_skipped (sample : α → ℚ → ℚ) (w : World α)
    (j : Nat) (r : EntityRecord α) (p : TweenProgress)
    (hr : w.entities[j]? = some r)
    (hp : r.progress = some p)
    (hq : p.now_percentage = none) :
    samples r = false ∧
      (sample_interpolations_system sample w).entities[j]? =
        some (if r.id ∈ w.removedProgress then { r with interp := none }
          else r) := by
  have hs := samples_of_sentinel r p hp hq
  refine ⟨hs, ?_⟩
  rw [getElem?_system, hr]
  simp only [Option.map_some']
  rw [runEntity_of_not_samples sample r hs]

/-- C4 witness: a sentinel entity with a stored value `2` and no removal
event is skipped and keeps its value. -/
theorem sentinel_skipped_witness :
    samples (⟨0, some (), false, some ⟨none⟩, true, some ⟨2⟩⟩ :
        EntityRecord Unit) = false ∧
      (sample_interpolations_system (fun (_ : Unit) q => q)
          ⟨[⟨0, some (), false, some ⟨none⟩, true, some ⟨2⟩⟩],
            []⟩).entities[0]? =
        some ⟨0, some (), false, some ⟨none⟩, true, some ⟨2⟩⟩ := by
  have h := sentinel_skipped (fun (_ : Unit) q => q)
    ⟨[⟨0, some (), false, some ⟨none⟩, true, some ⟨2⟩⟩], []⟩ 0
    ⟨0, some (), false, some ⟨none⟩, true, some ⟨2⟩⟩ ⟨none⟩ rfl rfl rfl
  exact ⟨h.1, h.2.trans (by decide)⟩

/-- C5 counterexample: after a run, an entity can hold a
`TweenInterpolationValue` while its current `TweenProgress` is the NaN
sentinel (the progress value turned NaN without the component being
removed), refuting the claimed equivalence on this input. -/
theorem interp_without_valid_progress_counterexample :
    ((sample_interpolations_system (fun (_ : Unit) q => q)
        ⟨[⟨0, some (), false, some ⟨none⟩, true, some ⟨7⟩⟩],
          []⟩).entities[0]?.map fun s => (s.interp, s.progress)) =
      some (some ⟨7⟩, some ⟨none⟩) := by decide

/-- C5 (amended): after a run, an entity holds a `TweenInterpolationValue`
iff no `TweenProgress` removal event for it was processed this run and it
either was sampled this run (curve present, changed, non-sentinel progress)
or already held a value from before. -/
theorem interp_exists_iff (sample : α → ℚ → ℚ) (w : World α)
    (j : Nat) (r : EntityRecord α)
    (hr : w.entities[j]? = some r) :
    ((sample_interpolations_system sample w).entities[j]?.map
      fun s => s.interp.isSome) =
      some (if r.id ∈ w.removedProgress then false
        else samples r || r.interp.isSome) := by
  rw [getElem?_system, hr]
  simp only [Option.map_some']
  by_cases hin : r.id ∈ w.removedProgress
  · simp [hin]
  · simp [hin, runEntity_interp_isSome]

/-- C5 witness: a freshly changed non-sentinel entity ends the run holding a
value. -/
theorem interp_exists_iff_witness :
    ((sample_interpolations_system (fun (_ : Unit) q => q)
        ⟨[⟨7, some (), false, some ⟨some (1/4)⟩, true, none⟩],
          []⟩).entities[0]?.map fun s => s.interp.isSome) = some true := by
  have h := interp_exists_iff (fun (_ : Unit) q => q)
    ⟨[⟨7, some (), false, some ⟨some (1/4)⟩, true, none⟩], []⟩ 0
    ⟨7, some (), false, some ⟨some (1/4)⟩, true, none⟩ rfl
  exact h.trans (by decide)

/-- C10: a queued `TweenProgress` removal event whose entity no longer
exists is ignored without effect or error: `commands.get_entity` yields
nothing for it, so the run with the dangling event equals the run without
it. -/
theorem dangling_removal_ignored (sample : α → ℚ → ℚ)
    (es : List (EntityRecord α)) (rest : List Nat) (i : Nat)
    (h : ∀ r ∈ es, r.id ≠ i) :
    sample_interpolations_system sample ⟨es, i :: rest⟩ =
      sample_interpolations_system sample ⟨es, rest⟩ := by
  unfold sample_interpolations_system
  have hskip : removeInterpFor (es.map (runEntity sample)) i =
      es.map (runEntity sample) := by
    apply removeInterpFor_of_not_mem
    intro s hmem
    rw [List.mem_map] at hmem
    rcases hmem with ⟨r0, hr0, rfl⟩
    rw [runEntity_id]
    exact h r0 hr0
  rw [List.foldl_cons, hskip]

/-- C10 witness: a removal event for despawned id `0` leaves the run over
the world that only contains entity `1` unaffected. -/
theorem dangling_removal_ignored_witness :
    sample_interpolations_system (fun (_ : Unit) q => q)
        ⟨[⟨1, some (), false, some ⟨some 1⟩, false, none⟩], [0]⟩ =
      sample_interpolations_system (fun (_ : Unit) q => q)
        ⟨[⟨1, some (), false, some ⟨some 1⟩, false, none⟩], []⟩ :=
  dangling_removal_ignored (fun (_ : Unit) q => q)
    [⟨1, some (), false, some ⟨some 1⟩, false, none⟩] [] 0 (by decide)

/-! Plugin wiring (src/lib.rs): schedules, system sets, `TweenAppResource`,
`TweenCorePlugin`, and the panicking wiring entry points. -/

/-- A bevy schedule label; `postUpdate` is the `PostUpdate` schedule used by
`TweenAppResource::default`, `other n` stands for any other interned label. -/
inductive ScheduleLabel where
  | postUpdate
  | other (n : Nat)
deriving DecidableEq, Repr

/-- `TweenSystemSet` (src/lib.rs): the four system sets of the crate. -/
inductive TweenSystemSet where
  | TickTweener
  | Tweener
  | UpdateInterpolationValue
  | ApplyTween
deriving DecidableEq, Repr

/-- `TweenAppResource`: the configured schedule for tween systems. -/
structure TweenAppResource where
  schedule : ScheduleLabel
deriving DecidableEq, Repr

/-- `TweenAppResource::default`: the `PostUpdate` schedule. -/
def TweenAppResource.default : TweenAppResource :=
  { schedule := ScheduleLabel.postUpdate }

/-- Identity of a system added to the app: the two generic instantiations of
`sample_interpolations_system` registered by this crate, or a host-supplied
system handed to `add_tween_systems`. -/
inductive SystemId where
  | sampleInterpolationsEaseFunction
  | sampleInterpolationsEaseClosure
  | hostSystem (n : Nat)
deriving DecidableEq, Repr

/-- The slice of a bevy `App` the wiring code touches: the optional
`TweenAppResource`, the set-ordering edges added by `configure_sets`
(per schedule), and the systems added with their schedule and set. -/
structure App where
  tweenAppResource : Option TweenAppResource
  setOrderEdges : List (ScheduleLabel × TweenSystemSet × TweenSystemSet)
  systems : List (ScheduleLabel × TweenSystemSet × SystemId)
deriving DecidableEq, Repr

/-- Bevy `chain()` on a tuple of sets: an ordering edge between each pair of
neighbours. -/
def chainPairs : List TweenSystemSet → List (TweenSystemSet × TweenSystemSet)
  | a :: b :: rest => (a, b) :: chainPairs (b :: rest)
  | _ => []

/-- `TweenCorePlugin`: carries the `TweenAppResource` it will insert. -/
structure TweenCorePlugin where
  app_resource : TweenAppResource

/-- `TweenCorePlugin::build`: `configure_sets` chains the four
`TweenSystemSet`s in the configured schedule and the `TweenAppResource` is
inserted into the world. -/
def TweenCorePlugin.build (p : TweenCorePlugin) (app : App) : App :=
  { app with
    setOrderEdges := app.setOrderEdges ++
      (chainPairs
        [TweenSystemSet.TickTweener, TweenSystemSet.Tweener,
          TweenSystemSet.UpdateInterpolationValue,
          TweenSystemSet.ApplyTween]).map
        (fun e => (p.app_resource.schedule, e)),
    tweenAppResource := some p.app_resource }

/-- The panic message of the `expect` calls guarding `TweenAppResource`. -/
def tweenAppResourceMissingMsg : String :=
  "`TweenAppResource` to be is inserted to world"

/-- `EaseFunctionPlugin::build`: reads `TweenAppResource` (panicking when it
is absent, modelled as `Except.error`) and adds
`sample_interpolations_system::<EaseFunction>` to the configured schedule in
set `UpdateInterpolationValue`. -/
def EaseFunctionPlugin.build (app : App) : Except String App :=
  match app.tweenAppResource with
  | none => Except.error tweenAppResourceMissingMsg
  | some res =>
    Except.ok { app with
      systems := app.systems ++
        [(res.schedule, TweenSystemSet.UpdateInterpolationValue,
          SystemId.sampleInterpolationsEaseFunction)] }

/-- `EaseClosurePlugin::build`: likewise for
`sample_interpolations_system::<EaseClosure>`. -/
def EaseClosurePlugin.build (app : App) : Except String App :=
  match app.tweenAppResource with
  | none => Except.error tweenAppResourceMissingMsg
  | some res =>
    Except.ok { app with
      systems := app.systems ++
        [(res.schedule, TweenSystemSet.UpdateInterpolationValue,
          SystemId.sampleInterpolationsEaseClosure)] }

/-- `BevyTweenRegisterSystems::add_tween_systems` on `App`: reads
`TweenAppResource` (panicking when absent) and adds the given systems to the
configured schedule in set `ApplyTween`. -/
def add_tween_systems (app : App) (tween_systems : List SystemId) :
    Except String App :=
  match app.tweenAppResource with
  | none => Except.error tweenAppResourceMissingMsg
  | some res =>
    Except.ok { app with
      systems := app.systems ++
        tween_systems.map
          (fun s => (res.schedule, TweenSystemSet.ApplyTween, s)) }

/-- `a` is ordered strictly before `b` among the sets of schedule `sch` of
this app: transitive closure of the `configure_sets` edges. -/
def App.setRunsBeforeIn (app : App) (sch : ScheduleLabel)
    (a b : TweenSystemSet) : Prop :=
  Relation.TransGen (fun x y => (sch, x, y) ∈ app.setOrderEdges) a b

/-- C7: `TweenCorePlugin::build` configures `TickTweener`, `Tweener`,
`UpdateInterpolationValue`, `ApplyTween` as a strict chain in the configured
schedule: every earlier stage is ordered strictly before every later one. -/
theorem core_plugin_chains_sets (p : TweenCorePlugin) (app : App) :
    ((p.build app).setRunsBeforeIn p.app_resource.schedule
        TweenSystemSet.TickTweener TweenSystemSet.Tweener ∧
      (p.build app).setRunsBeforeIn p.app_resource.schedule
        TweenSystemSet.Tweener TweenSystemSet.UpdateInterpolationValue ∧
      (p.build app).setRunsBeforeIn p.app_resource.schedule
        TweenSystemSet.UpdateInterpolationValue TweenSystemSet.ApplyTween) ∧
    ((p.build app).setRunsBeforeIn p.app_resource.schedule
        TweenSystemSet.TickTweener TweenSystemSet.UpdateInterpolationValue ∧
      (p.build app).setRunsBeforeIn p.app_resource.schedule
        TweenSystemSet.TickTweener TweenSystemSet.ApplyTween ∧
      (p.build app).setRunsBeforeIn p.app_resource.schedule
        TweenSystemSet.Tweener TweenSystemSet.ApplyTween) := by
  have e1 : (p.app_resource.schedule, TweenSystemSet.TickTweener,
      TweenSystemSet.Tweener) ∈ (p.build app).setOrderEdges := by
    simp [TweenCorePlugin.build, chainPairs]
  have e2 : (p.app_resource.schedule, TweenSystemSet.Tweener,
      TweenSystemSet.UpdateInterpolationValue) ∈
      (p.build app).setOrderEdges := by
    simp [TweenCorePlugin.build, chainPairs]
  have e3 : (p.app_resource.schedule,
      TweenSystemSet.UpdateInterpolationValue, TweenSystemSet.ApplyTween) ∈
      (p.build app).setOrderEdges := by
    simp [TweenCorePlugin.build, chainPairs]
  have t1 := Relation.TransGen.single (r := fun x y =>
    (p.app_resource.schedule, x, y) ∈ (p.build app).setOrderEdges) e1
  have t2 := Relation.TransGen.single (r := fun x y =>
    (p.app_resource.schedule, x, y) ∈ (p.build app).setOrderEdges) e2
  have t3 := Relation.TransGen.single (r := fun x y =>
    (p.app_resource.schedule, x, y) ∈ (p.build app).setOrderEdges) e3
  exact ⟨⟨t1, t2, t3⟩, t1.trans t2, (t1.trans t2).trans t3, t2.trans t3⟩

/-- C8: with `TweenAppResource` absent from the world, each of
`EaseFunctionPlugin::build`, `EaseClosurePlugin::build` and
`add_tween_systems` fails immediately at wiring time with the
`expect` panic, before any system is registered. -/
theorem missing_resource_panics (app : App) (tween_systems : List SystemId)
    (h : app.tweenAppResource = none) :
    EaseFunctionPlugin.build app =
        Except.error tweenAppResourceMissingMsg ∧
      EaseClosurePlugin.build app =
        Except.error tweenAppResourceMissingMsg ∧
      add_tween_systems app tween_systems =
        Except.error tweenAppResourceMissingMsg := by
  unfold EaseFunctionPlugin.build EaseClosurePlugin.build add_tween_systems
  rw [h]
  exact ⟨rfl, rfl, rfl⟩

/-- C8 witness: the empty app without the resource makes all three wiring
entry points fail. -/
theorem missing_resource_panics_witness :
    EaseFunctionPlugin.build ⟨none, [], []⟩ =
        Except.error tweenAppResourceMissingMsg ∧
      EaseClosurePlugin.build ⟨none, [], []⟩ =
        Except.error tweenAppResourceMissingMsg ∧
      add_tween_systems ⟨none, [], []⟩ [SystemId.hostSystem 0] =
        Except.error tweenAppResourceMissingMsg :=
  missing_resource_panics ⟨none, [], []⟩ [SystemId.hostSystem 0] rfl

/-! The easing library.  The repository's `ease_functions` module (declared
by `mod ease_functions;` in src/interpolation.rs) is not part of the sources
at hand, so its curves are modelled from the spec: the standard closed-form
in/out/in-out family over real numbers, with `sample(0)=0`, `sample(1)=1`,
overshoot allowed strictly inside the domain for back and elastic. -/

namespace ease_functions

/-- Modelled from the spec: the linear curve of the missing `ease_functions`
module, the identity remapping. -/
def linear (v : ℝ) : ℝ := v

/-- Modelled from the spec: standard quadratic ease-in. -/
noncomputable def quadratic_in (v : ℝ) : ℝ := v ^ 2

/-- Modelled from the spec: standard quadratic ease-out. -/
noncomputable def quadratic_out (v : ℝ) : ℝ := 1 - (1 - v) ^ 2

/-- Modelled from the spec: standard quadratic ease-in-out. -/
noncomputable def quadratic_in_out (v : ℝ) : ℝ :=
  if v < 1 / 2 then 2 * v ^ 2 else 1 - (-2 * v + 2) ^ 2 / 2

/-- Modelled from the spec: standard cubic ease-in. -/
noncomputable def cubic_in (v : ℝ) : ℝ := v ^ 3

/-- Modelled from the spec: standard cubic ease-out. -/
noncomputable def cubic_out (v : ℝ) : ℝ := 1 - (1 - v) ^ 3

/-- Modelled from the spec: standard cubic ease-in-out. -/
noncomputable def cubic_in_out (v : ℝ) : ℝ :=
  if v < 1 / 2 then 4 * v ^ 3 else 1 - (-2 * v + 2) ^ 3 / 2

/-- Modelled from the spec: standard quartic ease-in. -/
noncomputable def quartic_in (v : ℝ) : ℝ := v ^ 4

/-- Modelled from the spec: standard quartic ease-out. -/
noncomputable def quartic_out (v : ℝ) : ℝ := 1 - (1 - v) ^ 4

/-- Modelled from the spec: standard quartic ease-in-out. -/
noncomputable def quartic_in_out (v : ℝ) : ℝ :=
  if v < 1 / 2 then 8 * v ^ 4 else 1 - (-2 * v + 2) ^ 4 / 2

/-- Modelled from the spec: standard quintic ease-in. -/
noncomputable def quintic_in (v : ℝ) : ℝ := v ^ 5

/-- Modelled from the spec: standard quintic ease-out. -/
noncomputable def quintic_out (v : ℝ) : ℝ := 1 - (1 - v) ^ 5

/-- Modelled from the spec: standard quintic ease-in-out. -/
noncomputable def quintic_in_out (v : ℝ) : ℝ :=
  if v < 1 / 2 then 16 * v ^ 5 else 1 - (-2 * v + 2) ^ 5 / 2

/-- Modelled from the spec: standard sine ease-in. -/
noncomputable def sine_in (v : ℝ) : ℝ := 1 - Real.cos (v * Real.pi / 2)

/-- Modelled from the spec: standard sine ease-out. -/
noncomputable def sine_out (v : ℝ) : ℝ := Real.sin (v * Real.pi / 2)

/-- Modelled from the spec: standard sine ease-in-out. -/
noncomputable def sine_in_out (v : ℝ) : ℝ :=
  -(Real.cos (Real.pi * v) - 1) / 2

/-- Modelled from the spec: standard circular ease-in. -/
noncomputable def circular_in (v : ℝ) : ℝ := 1 - Real.sqrt (1 - v ^ 2)

/-- Modelled from the spec: standard circular ease-out. -/
noncomputable def circular_out (v : ℝ) : ℝ := Real.sqrt (1 - (v - 1) ^ 2)

/-- Modelled from the spec: standard circular ease-in-out. -/
noncomputable def circular_in_out (v : ℝ) : ℝ :=
  if v < 1 / 2 then (1 - Real.sqrt (1 - (2 * v) ^ 2)) / 2
  else (Real.sqrt (1 - (-2 * v + 2) ^ 2) + 1) / 2

/-- Modelled from the spec: standard exponential ease-in, with the endpoint
special case making it reach 0 exactly. -/
noncomputable def exponential_in (v : ℝ) : ℝ :=
  if v = 0 then 0 else (2 : ℝ) ^ (10 * v - 10)

/-- Modelled from the spec: standard exponential ease-out, with the endpoint
special case making it reach 1 exactly. -/
noncomputable def exponential_out (v : ℝ) : ℝ :=
  if v = 1 then 1 else 1 - (2 : ℝ) ^ (-10 * v)

/-- Modelled from the spec: standard exponential ease-in-out. -/
noncomputable def exponential_in_out (v : ℝ) : ℝ :=
  if v = 0 then 0
  else if v = 1 then 1
  else if v < 1 / 2 then (2 : ℝ) ^ (20 * v - 10) / 2
  else (2 - (2 : ℝ) ^ (-20 * v + 10)) / 2

/-- Modelled from the spec: standard elastic ease-in (overshooting inside
the domain, exact at both endpoints). -/
noncomputable def elastic_in (v : ℝ) : ℝ :=
  if v = 0 then 0
  else if v = 1 then 1
  else -((2 : ℝ) ^ (10 * v - 10)) *
    Real.sin ((v * 10 - 10.75) * (2 * Real.pi / 3))

/-- Modelled from the spec: standard elastic ease-out. -/
noncomputable def elastic_out (v : ℝ) : ℝ :=
  if v = 0 then 0
  else if v = 1 then 1
  else (2 : ℝ) ^ (-10 * v) *
    Real.sin ((v * 10 - 0.75) * (2 * Real.pi / 3)) + 1

/-- Modelled from the spec: standard elastic ease-in-out. -/
noncomputable def elastic_in_out (v : ℝ) : ℝ :=
  if v = 0 then 0
  else if v = 1 then 1
  else if v < 1 / 2 then
    -((2 : ℝ) ^ (20 * v - 10) *
      Real.sin ((20 * v - 11.125) * (2 * Real.pi / 4.5))) / 2
  else
    ((2 : ℝ) ^ (-20 * v + 10) *
      Real.sin ((20 * v - 11.125) * (2 * Real.pi / 4.5))) / 2 + 1

/-- Modelled from the spec: the standard back-overshoot constant. -/
noncomputable def backC1 : ℝ := 1.70158

/-- Modelled from the spec: the back in-out constant `c1 * 1.525`. -/
noncomputable def backC2 : ℝ := backC1 * 1.525

/-- Modelled from the spec: the back cubic coefficient `c1 + 1`. -/
noncomputable def backC3 : ℝ := backC1 + 1

/-- Modelled from the spec: standard back ease-in (overshooting inside the
domain, exact at both endpoints). -/
noncomputable def back_in (v : ℝ) : ℝ := backC3 * v ^ 3 - backC1 * v ^ 2

/-- Modelled from the spec: standard back ease-out. -/
noncomputable def back_out (v : ℝ) : ℝ :=
  1 + backC3 * (v - 1) ^ 3 + backC1 * (v - 1) ^ 2

/-- Modelled from the spec: standard back ease-in-out. -/
noncomputable def back_in_out (v : ℝ) : ℝ :=
  if v < 1 / 2 then
    ((2 * v) ^ 2 * ((backC2 + 1) * 2 * v - backC2)) / 2
  else
    ((2 * v - 2) ^ 2 * ((backC2 + 1) * (2 * v - 2) + backC2) + 2) / 2

/-- Modelled from the spec: standard bounce ease-out, the four-segment
piecewise parabola. -/
noncomputable def bounce_out (v : ℝ) : ℝ :=
  if v < 1 / 2.75 then 7.5625 * v ^ 2
  else if v < 2 / 2.75 then 7.5625 * (v - 1.5 / 2.75) ^ 2 + 0.75
  else if v < 2.5 / 2.75 then 7.5625 * (v - 2.25 / 2.75) ^ 2 + 0.9375
  else 7.5625 * (v - 2.625 / 2.75) ^ 2 + 0.984375

/-- Modelled from the spec: standard bounce ease-in, the reflection of
bounce ease-out. -/
noncomputable def bounce_in (v : ℝ) : ℝ := 1 - bounce_out (1 - v)

/-- Modelled from the spec: standard bounce ease-in-out. -/
noncomputable def bounce_in_out (v : ℝ) : ℝ :=
  if v < 1 / 2 then (1 - bounce_out (1 - 2 * v)) / 2
  else (1 + bounce_out (2 * v - 1)) / 2

theorem bounce_out_zero : bounce_out 0 = 0 := by
  unfold bounce_out
  norm_num

theorem bounce_out_one : bounce_out 1 = 1 := by
  unfold bounce_out
  norm_num

theorem linear_endpoints : linear 0 = 0 ∧ linear 1 = 1 := ⟨rfl, rfl⟩

theorem quadratic_in_endpoints :
    quadratic_in 0 = 0 ∧ quadratic_in 1 = 1 := by
  unfold quadratic_in
  constructor <;> norm_num

theorem quadratic_out_endpoints :
    quadratic_out 0 = 0 ∧ quadratic_out 1 = 1 := by
  unfold quadratic_out
  constructor <;> norm_num

theorem quadratic_in_out_endpoints :
    quadratic_in_out 0 = 0 ∧ quadratic_in_out 1 = 1 := by
  unfold quadratic_in_out
  constructor <;> norm_num

theorem cubic_in_endpoints : cubic_in 0 = 0 ∧ cubic_in 1 = 1 := by
  unfold cubic_in
  constructor <;> norm_num

theorem cubic_out_endpoints : cubic_out 0 = 0 ∧ cubic_out 1 = 1 := by
  unfold cubic_out
  constructor <;> norm_num

theorem cubic_in_out_endpoints :
    cubic_in_out 0 = 0 ∧ cubic_in_out 1 = 1 := by
  unfold cubic_in_out
  constructor <;> norm_num

theorem quartic_in_endpoints : quartic_in 0 = 0 ∧ quartic_in 1 = 1 := by
  unfold quartic_in
  constructor <;> norm_num

theorem quartic_out_endpoints : quartic_out 0 = 0 ∧ quartic_out 1 = 1 := by
  unfold quartic_out
  constructor <;> norm_num

theorem quartic_in_out_endpoints :
    quartic_in_out 0 = 0 ∧ quartic_in_out 1 = 1 := by
  unfold quartic_in_out
  constructor <;> norm_num

theorem quintic_in_endpoints : quintic_in 0 = 0 ∧ quintic_in 1 = 1 := by
  unfold quintic_in
  constructor <;> norm_num

theorem quintic_out_endpoints : quintic_out 0 = 0 ∧ quintic_out 1 = 1 := by
  unfold quintic_out
  constructor <;> norm_num

theorem quintic_in_out_endpoints :
    quintic_in_out 0 = 0 ∧ quintic_in_out 1 = 1 := by
  unfold quintic_in_out
  constructor <;> norm_num

theorem sine_in_endpoints : sine_in 0 = 0 ∧ sine_in 1 = 1 := by
  unfold sine_in
  constructor <;> norm_num [Real.cos_zero, Real.cos_pi_div_two]

theorem sine_out_endpoints : sine_out 0 = 0 ∧ sine_out 1 = 1 := by
  unfold sine_out
  constructor <;> norm_num [Real.sin_zero, Real.sin_pi_div_two]

theorem sine_in_out_endpoints :
    sine_in_out 0 = 0 ∧ sine_in_out 1 = 1 := by
  unfold sine_in_out
  constructor <;> norm_num [Real.cos_zero, Real.cos_pi]

theorem circular_in_endpoints :
    circular_in 0 = 0 ∧ circular_in 1 = 1 := by
  unfold circular_in
  constructor <;> norm_num [Real.sqrt_one, Real.sqrt_zero]

theorem circular_out_endpoints :
    circular_out 0 = 0 ∧ circular_out 1 = 1 := by
  unfold circular_out
  constructor <;> norm_num [Real.sqrt_one, Real.sqrt_zero]

theorem circular_in_out_endpoints :
    circular_in_out 0 = 0 ∧ circular_in_out 1 = 1 := by
  unfold circular_in_out
  constructor <;> norm_num [Real.sqrt_one, Real.sqrt_zero]

theorem exponential_in_endpoints :
    exponential_in 0 = 0 ∧ exponential_in 1 = 1 := by
  unfold exponential_in
  constructor <;> norm_num [Real.rpow_zero]

theorem exponential_out_endpoints :
    exponential_out 0 = 0 ∧ exponential_out 1 = 1 := by
  unfold exponential_out
  constructor <;> norm_num [Real.rpow_zero]

theorem exponential_in_out_endpoints :
    exponential_in_out 0 = 0 ∧ exponential_in_out 1 = 1 := by
  unfold exponential_in_out
  constructor <;> norm_num

theorem elastic_in_endpoints :
    elastic_in 0 = 0 ∧ elastic_in 1 = 1 := by
  unfold elastic_in
  constructor <;> norm_num

theorem elastic_out_endpoints :
    elastic_out 0 = 0 ∧ elastic_out 1 = 1 := by
  unfold elastic_out
  constructor <;> norm_num

theorem elastic_in_out_endpoints :
    elastic_in_out 0 = 0 ∧ elastic_in_out 1 = 1 := by
  unfold elastic_in_out
  constructor <;> norm_num

theorem back_in_endpoints : back_in 0 = 0 ∧ back_in 1 = 1 := by
  unfold back_in backC3 backC1
  constructor <;> norm_num

theorem back_out_endpoints : back_out 0 = 0 ∧ back_out 1 = 1 := by
  unfold back_out backC3 backC1
  constructor <;> norm_num

theorem back_in_out_endpoints :
    back_in_out 0 = 0 ∧ back_in_out 1 = 1 := by
  unfold back_in_out
  constructor <;> norm_num

theorem bounce_out_endpoints : bounce_out 0 = 0 ∧ bounce_out 1 = 1 :=
  ⟨bounce_out_zero, bounce_out_one⟩

theorem bounce_in_endpoints : bounce_in 0 = 0 ∧ bounce_in 1 = 1 := by
  unfold bounce_in
  constructor <;> norm_num [bounce_out_zero, bounce_out_one]

theorem bounce_in_out_endpoints :
    bounce_in_out 0 = 0 ∧ bounce_in_out 1 = 1 := by
  unfold bounce_in_out
  constructor <;> norm_num [bounce_out_zero, bounce_out_one]

end ease_functions

/-- `EaseFunction` (src/interpolation.rs): the closed catalog of named
easing curves, `Linear` being the `#[default]` variant. -/
inductive EaseFunction where
  | Linear
  | QuadraticIn
  | QuadraticOut
  | QuadraticInOut
  | CubicIn
  | CubicOut
  | CubicInOut
  | QuarticIn
  | QuarticOut
  | QuarticInOut
  | QuinticIn
  | QuinticOut
  | QuinticInOut
  | SineIn
  | SineOut
  | SineInOut
  | CircularIn
  | CircularOut
  | CircularInOut
  | ExponentialIn
  | ExponentialOut
  | ExponentialInOut
  | ElasticIn
  | ElasticOut
  | ElasticInOut
  | BackIn
  | BackOut
  | BackInOut
  | BounceIn
  | BounceOut
  | BounceInOut
deriving DecidableEq, Repr

/-- `EaseFunction::sample` (src/interpolation.rs): dispatch into the
`ease_functions` module. -/
noncomputable def EaseFunction.sample : EaseFunction → ℝ → ℝ
  | Linear => ease_functions.linear
  | QuadraticIn => ease_functions.quadratic_in
  | QuadraticOut => ease_functions.quadratic_out
  | QuadraticInOut => ease_functions.quadratic_in_out
  | CubicIn => ease_functions.cubic_in
  | CubicOut => ease_functions.cubic_out
  | CubicInOut => ease_functions.cubic_in_out
  | QuarticIn => ease_functions.quartic_in
  | QuarticOut => ease_functions.quartic_out
  | QuarticInOut => ease_functions.quartic_in_out
  | QuinticIn => ease_functions.quintic_in
  | QuinticOut => ease_functions.quintic_out
  | QuinticInOut => ease_functions.quintic_in_out
  | SineIn => ease_functions.sine_in
  | SineOut => ease_functions.sine_out
  | SineInOut => ease_functions.sine_in_out
  | CircularIn => ease_functions.circular_in
  | CircularOut => ease_functions.circular_out
  | CircularInOut => ease_functions.circular_in_out
  | ExponentialIn => ease_functions.exponential_in
  | ExponentialOut => ease_functions.exponential_out
  | ExponentialInOut => ease_functions.exponential_in_out
  | ElasticIn => ease_functions.elastic_in
  | ElasticOut => ease_functions.elastic_out
  | ElasticInOut => ease_functions.elastic_in_out
  | BackIn => ease_functions.back_in
  | BackOut => ease_functions.back_out
  | BackInOut => ease_functions.back_in_out
  | BounceIn => ease_functions.bounce_in
  | BounceOut => ease_functions.bounce_out
  | BounceInOut => ease_functions.bounce_in_out

/-- `#[default]` on `EaseFunction::Linear` (src/interpolation.rs). -/
def EaseFunction.default : EaseFunction := EaseFunction.Linear

/-- `EaseClosure` (src/interpolation.rs): a user-supplied easing function. -/
structure EaseClosure where
  f : ℝ → ℝ

/-- `EaseClosure::new`. -/
def EaseClosure.new (f : ℝ → ℝ) : EaseClosure := ⟨f⟩

/-- `impl Default for EaseClosure`: wraps `ease_functions::linear`. -/
def EaseClosure.default : EaseClosure := EaseClosure.new ease_functions.linear

/-- `impl Interpolation for EaseClosure`: calls the wrapped closure. -/
def EaseClosure.sample (c : EaseClosure) (v : ℝ) : ℝ := c.f v

/-- C6: every variant of `EaseFunction` satisfies `sample 0 = 0` and
`sample 1 = 1` — exactly, hence in particular within tolerance `1e-6`. -/
theorem ease_function_sample_endpoints (e : EaseFunction) :
    EaseFunction.sample e 0 = 0 ∧ EaseFunction.sample e 1 = 1 := by
  cases e
  exacts [ease_functions.linear_endpoints,
    ease_functions.quadratic_in_endpoints,
    ease_functions.quadratic_out_endpoints,
    ease_functions.quadratic_in_out_endpoints,
    ease_functions.cubic_in_endpoints,
    ease_functions.cubic_out_endpoints,
    ease_functions.cubic_in_out_endpoints,
    ease_functions.quartic_in_endpoints,
    ease_functions.quartic_out_endpoints,
    ease_functions.quartic_in_out_endpoints,
    ease_functions.quintic_in_endpoints,
    ease_functions.quintic_out_endpoints,
    ease_functions.quintic_in_out_endpoints,
    ease_functions.sine_in_endpoints,
    ease_functions.sine_out_endpoints,
    ease_functions.sine_in_out_endpoints,
    ease_functions.circular_in_endpoints,
    ease_functions.circular_out_endpoints,
    ease_functions.circular_in_out_endpoints,
    ease_functions.exponential_in_endpoints,
    ease_functions.exponential_out_endpoints,
    ease_functions.exponential_in_out_endpoints,
    ease_functions.elastic_in_endpoints,
    ease_functions.elastic_out_endpoints,
    ease_functions.elastic_in_out_endpoints,
    ease_functions.back_in_endpoints,
    ease_functions.back_out_endpoints,
    ease_functions.back_in_out_endpoints,
    ease_functions.bounce_in_endpoints,
    ease_functions.bounce_out_endpoints,
    ease_functions.bounce_in_out_endpoints]

/-- C9: the default `EaseFunction` is `Linear` and the default `EaseClosure`
wraps `ease_functions::linear`, so on `[0, 1]` both default curves sample to
the identity. -/
theorem default_curves_are_identity (v : ℝ) (_h0 : 0 ≤ v) (_h1 : v ≤ 1) :
    EaseFunction.default = EaseFunction.Linear ∧
      EaseFunction.sample EaseFunction.default v = v ∧
      EaseClosure.sample EaseClosure.default v = v :=
  ⟨rfl, rfl, rfl⟩

/-- C9 witness: both defaults return `1/2` at `1/2`. -/
theorem default_curves_are_identity_witness :
    (0 : ℝ) ≤ 1 / 2 ∧ (1 : ℝ) / 2 ≤ 1 ∧
      (EaseFunction.default = EaseFunction.Linear ∧
        EaseFunction.sample EaseFunction.default (1 / 2) = 1 / 2 ∧
        EaseClosure.sample EaseClosure.default (1 / 2) = 1 / 2) :=
  ⟨by norm_num, by norm_num,
    default_curves_are_identity (1 / 2) (by norm_num) (by norm_num)⟩

end BevyTween
